import Mathlib

/-!
Shallow embedding of `perftool/utils.py` (a benchmarking harness).

Modelling choices:
* Python numbers (`int` / `float`) are modelled as `ℚ`; the decimal strings the
  tool parses are exactly representable as rationals.
* The filesystem is passed explicitly: the `config.json` file is an
  `Option BenchesTable` (`none` = the file does not exist), a CSV file is an
  `Option Csv` (`none` = the file does not exist), where `Csv` is the ordered
  list of rows.
* The process-wide random generator and the benchmark subprocess are oracles
  passed as arguments (a natural number seed, respectively a function giving
  the captured stdout text).
* Fallible Python code (raised exceptions) becomes `Except PerfError`.
-/

namespace Perftool

deriving instance DecidableEq for Except

/-- A cell of a CSV file: the header row holds strings, appended data rows hold
numbers. -/
inductive Cell where
  | str (s : String)
  | num (q : ℚ)
deriving DecidableEq

/-- A CSV file is the ordered list of its rows; the first row, when present, is
the header row. -/
abbrev Csv := List (List Cell)

/-- The error kinds the tool can raise (spec section 7 plus the underlying
Python exceptions they come from). -/
inductive PerfError where
  /-- `FileNotFoundError` from `open` on a missing `config.json`. -/
  | fileNotFound
  /-- `KeyError` from a dict lookup, carrying the missing key. -/
  | keyNotFound (k : String)
  /-- `IndexError` from `re.findall(...)[0]` on an empty match list: the
  spec's ParseFailure. -/
  | parseFailure
  /-- `ValueError` raised by `init_csv` on a header mismatch: the spec's
  SchemaMismatch, naming the existing headers. -/
  | schemaMismatch (headers : List String)
  /-- `ValueError` raised by `pandas.DataFrame` construction. -/
  | valueError (msg : String)
  /-- `pandas.errors.EmptyDataError` from `read_csv` on an empty file. -/
  | emptyData
deriving DecidableEq

/-- The spec's ConfigKeyMissing condition covers the benchmark name being
absent as well as the config file being missing or unreadable (spec section 7). -/
def isConfigKeyMissing : PerfError → Bool
  | .fileNotFound => true
  | .keyNotFound _ => true
  | _ => false

/-- One entry of the `benches` mapping of `config.json`: the parameter and
output column names. -/
structure BenchData where
  parameter : String
  output : String
deriving DecidableEq

/-- The `benches` mapping of `config.json`, in insertion order. -/
abbrev BenchesTable := List (String × BenchData)

/-- The state of `config.json` in the current working directory: `none` when
the file does not exist. -/
abbrev ConfigFile := Option BenchesTable

/-- Embeds `load_bench_function_data` (utils.py lines 74-79): `open` raises
`FileNotFoundError` when `config.json` is missing, otherwise
`config["benches"][bench_function]` raises `KeyError` when the name is absent. -/
def load_bench_function_data (config : ConfigFile) (bench_function : String) :
    Except PerfError BenchData :=
  match config with
  | none => .error .fileNotFound
  | some benches =>
    match benches.lookup bench_function with
    | none => .error (.keyNotFound bench_function)
    | some d => .ok d

/-- Embeds `random.randrange(min_value, max_value)` from its library contract:
an integer drawn from `[min_value, max_value)`; an empty range raises
`ValueError`.  The draw is `min_value + r % (max_value - min_value)` for the
generator output `r`. -/
def randrange (min_value max_value : Int) (r : Nat) : Except PerfError Int :=
  if max_value ≤ min_value then .error (.valueError "empty range for randrange")
  else .ok (min_value + (r : Int) % (max_value - min_value))

/-- Embeds `sample` (utils.py lines 11-31).  The default (uniform) path calls
`random.randrange`; `int` of its result is never `None`, so the `while` loop
body executes exactly once and the function returns that single draw. -/
def sample (min_value max_value : Int) (r : Nat) : Except PerfError Int :=
  randrange min_value max_value r

/-- Decimal value of a digit string, most significant digit first (the effect
of Python `int`/`float` on a run of digits). -/
def digitsVal (ds : List Char) : Nat :=
  ds.foldl (fun acc c => 10 * acc + (c.toNat - 48)) 0

/-- Value of the decimal literal `d1 "." d2` as parsed by Python `float`,
modelled exactly as a rational. -/
def decValue (d1 d2 : List Char) : ℚ :=
  (digitsVal d1 : ℚ) + (digitsVal d2 : ℚ) / (10 : ℚ) ^ d2.length

/-- One attempt of the regex `\d+\.\d+` at the start of `s` (digits meaning
`0`-`9`): the greedy `\d+` consumes the maximal digit run, which must be
nonempty and followed by `.` and a nonempty digit run.  Backtracking inside the
first `\d+` never helps, because every shorter prefix of the run is followed by
a digit, not by `.`; so the match at this position is exactly the maximal runs. -/
def decMatchAt (s : List Char) : Option (List Char × List Char) :=
  if s.takeWhile Char.isDigit = [] then none
  else
    match s.dropWhile Char.isDigit with
    | [] => none
    | c :: rest =>
      if c = '.' then
        if rest.takeWhile Char.isDigit = [] then none
        else some (s.takeWhile Char.isDigit, rest.takeWhile Char.isDigit)
      else none

/-- The first match of `re.findall(r"\d+\.\d+", s)`: the regex engine tries
each start position left to right. -/
def findDecimal : List Char → Option (List Char × List Char)
  | [] => none
  | c :: rest =>
    match decMatchAt (c :: rest) with
    | some m => some m
    | none => findDecimal rest

/-- The token the regex `\d+\.\d+` describes: a nonempty digit run, a dot, a
nonempty digit run. -/
def IsDecTok (d1 d2 : List Char) : Prop :=
  d1 ≠ [] ∧ d2 ≠ [] ∧ (∀ c ∈ d1, c.isDigit = true) ∧ (∀ c ∈ d2, c.isDigit = true)

/-- Embeds the result-parsing tail of `bench` (utils.py lines 57-59), the
spec's `parse_duration`: `re.findall(pattern, stdout)[0]` raises `IndexError`
(ParseFailure) when there is no match, else `float` of the first match. -/
def parse_duration (s : String) : Except PerfError ℚ :=
  match findDecimal s.toList with
  | none => .error .parseFailure
  | some (d1, d2) => .ok (decValue d1 d2)

/-- Embeds `bench` (utils.py lines 44-59).  The benchmark subprocess is an
oracle `runner` mapping (function name, parameter) to the captured stdout
text; `bench` parses the first decimal number out of that text. -/
def bench (runner : String → Int → String) (bench_function : String)
    (parameter : Int) : Except PerfError ℚ :=
  parse_duration (runner bench_function parameter)

/-- Python dict insertion: `{a: x, b: y}` builds up by inserted key order, a
repeated key overwriting in place. -/
def dictInsert (k : String) (v : ℚ) : List (String × ℚ) → List (String × ℚ)
  | [] => [(k, v)]
  | (k0, v0) :: rest =>
    if k0 = k then (k0, v) :: rest else (k0, v0) :: dictInsert k v rest

/-- Embeds `sample_and_bench` (utils.py lines 62-71): sample a parameter, run
the benchmark, load the column names, return the dict
`{parameter_column: parameter, output_column: output}`. -/
def sample_and_bench (config : ConfigFile) (runner : String → Int → String)
    (bench_function : String) (min_value max_value : Int) (r : Nat) :
    Except PerfError (List (String × ℚ)) :=
  match sample min_value max_value r with
  | .error e => .error e
  | .ok parameter =>
    match bench runner bench_function parameter with
    | .error e => .error e
    | .ok output =>
      match load_bench_function_data config bench_function with
      | .error e => .error e
      | .ok bench_data =>
        .ok (dictInsert bench_data.output output
          (dictInsert bench_data.parameter (parameter : ℚ) []))

/-- The header name `pandas.read_csv` reports for a first-row cell (data cells
never occur in a header row written by this tool). -/
def cellHeaderName : Cell → String
  | .str s => s
  | .num q => toString q.num ++ "/" ++ toString q.den

/-- Embeds `init_csv` (utils.py lines 82-93).  Returns the call's outcome and
the resulting state of the file at `csv_file_path`.  If the file exists its
header row is read and compared as a set against the expected headers
(mismatch raises `ValueError` naming the existing headers, touching nothing);
if it does not exist, a file holding exactly the header row
parameter-then-output is written. -/
def init_csv (config : ConfigFile) (file : Option Csv) (bench_function : String) :
    Except PerfError Unit × Option Csv :=
  match load_bench_function_data config bench_function with
  | .error e => (.error e, file)
  | .ok d =>
    let headers := [d.parameter, d.output]
    match file with
    | some rows =>
      match rows with
      | [] => (.error .emptyData, file)
      | h :: _ =>
        let existing_headers := h.map cellHeaderName
        if headers.toFinset = existing_headers.toFinset then (.ok (), file)
        else (.error (.schemaMismatch existing_headers), file)
    | none => (.ok (), some [[Cell.str d.parameter, Cell.str d.output]])

/-- A Python value passed in the dict handed to `pandas.DataFrame`: a scalar
or a list (column). -/
inductive PyVal where
  | scalar (q : ℚ)
  | column (qs : List ℚ)
deriving DecidableEq

/-- Embeds `pandas.DataFrame(data)` for a dict `data`, as the list of its rows
(columns in dict key order): all-scalar values raise
`ValueError("If using all scalar values, you must pass an index")`; columns of
unequal length raise `ValueError`; otherwise scalars broadcast along the
common column length. -/
def dfRows (data : List (String × PyVal)) : Except PerfError (List (List ℚ)) :=
  match data with
  | [] => .ok []
  | _ =>
    let lens := data.filterMap fun kv =>
      match kv.2 with
      | .scalar _ => none
      | .column qs => some qs.length
    match lens with
    | [] => .error (.valueError "If using all scalar values, you must pass an index")
    | n :: restLens =>
      if restLens.all (fun m => m = n) then
        .ok ((List.range n).map fun i =>
          data.map fun kv =>
            match kv.2 with
            | .scalar q => q
            | .column qs => qs.getD i 0)
      else .error (.valueError "All arrays must be of the same length")

/-- Embeds `write_into_csv` (utils.py lines 96-99): build a DataFrame from
`data` (raising before the file is opened on a bad dict), then append its rows
to the file with `header=False` — the existing file content is never read. -/
def write_into_csv (data : List (String × PyVal)) (file : Csv) :
    Except PerfError Unit × Csv :=
  match dfRows data with
  | .error e => (.error e, file)
  | .ok rows => (.ok (), file ++ rows.map fun row => row.map Cell.num)

/-! ### Helper lemmas about the regex model -/

lemma takeWhile_append_of_all {p : Char → Bool} (a b : List Char)
    (ha : ∀ c ∈ a, p c = true) :
    (a ++ b).takeWhile p = a ++ b.takeWhile p := by
  induction a with
  | nil => simp
  | cons x xs ih =>
    simp only [List.cons_append]
    rw [List.takeWhile_cons_of_pos (ha x (by simp)),
      ih (fun c hc => ha c (by simp [hc]))]

lemma dropWhile_append_of_all {p : Char → Bool} (a b : List Char)
    (ha : ∀ c ∈ a, p c = true) :
    (a ++ b).dropWhile p = b.dropWhile p := by
  induction a with
  | nil => simp
  | cons x xs ih =>
    simp only [List.cons_append, List.dropWhile_cons, ha x (by simp)]
    exact ih (fun c hc => ha c (by simp [hc]))

lemma decMatchAt_eq_some {s d1 d2 : List Char}
    (h : decMatchAt s = some (d1, d2)) :
    IsDecTok d1 d2 ∧ ∃ suf, s = (d1 ++ '.' :: d2) ++ suf := by
  unfold decMatchAt at h
  split at h
  · exact absurd h (by simp)
  · rename_i hne
    split at h
    · exact absurd h (by simp)
    · rename_i c rest hdw
      split at h
      · rename_i hc
        subst hc
        split at h
        · exact absurd h (by simp)
        · rename_i hne2
          obtain ⟨h1, h2⟩ := Prod.mk.injEq .. ▸ Option.some.inj h
          subst h1
          subst h2
          refine ⟨⟨hne, hne2, fun c hc => List.mem_takeWhile_imp hc,
            fun c hc => List.mem_takeWhile_imp hc⟩,
            rest.dropWhile Char.isDigit, ?_⟩
          conv_lhs => rw [← List.takeWhile_append_dropWhile Char.isDigit s, hdw,
            ← List.takeWhile_append_dropWhile Char.isDigit rest]
          simp
      · exact absurd h (by simp)

lemma decMatchAt_isSome {d1 d2 : List Char} (suf : List Char)
    (ht : IsDecTok d1 d2) :
    (decMatchAt ((d1 ++ '.' :: d2) ++ suf)).isSome = true := by
  obtain ⟨h1, h2, hall1, hall2⟩ := ht
  have htw : ((d1 ++ '.' :: d2) ++ suf).takeWhile Char.isDigit = d1 := by
    rw [List.append_assoc, takeWhile_append_of_all d1 _ hall1]
    simp [List.takeWhile_cons]
  have hdw : ((d1 ++ '.' :: d2) ++ suf).dropWhile Char.isDigit
      = '.' :: (d2 ++ suf) := by
    rw [List.append_assoc, dropWhile_append_of_all d1 _ hall1]
    simp [List.dropWhile_cons]
  have htw2 : (d2 ++ suf).takeWhile Char.isDigit ≠ [] := by
    cases d2 with
    | nil => exact absurd rfl h2
    | cons x xs =>
      rw [List.cons_append, List.takeWhile_cons_of_pos (hall2 x (by simp))]
      simp
  unfold decMatchAt
  rw [htw, hdw, if_neg h1]
  simp [htw2]

lemma findDecimal_spec {s d1 d2 : List Char}
    (h : findDecimal s = some (d1, d2)) :
    ∃ pre suf, s = pre ++ (d1 ++ '.' :: d2) ++ suf ∧ IsDecTok d1 d2 ∧
      ∀ pre' d1' d2' suf', IsDecTok d1' d2' →
        s = pre' ++ (d1' ++ '.' :: d2') ++ suf' → pre.length ≤ pre'.length := by
  induction s with
  | nil => exact absurd h (by simp [findDecimal])
  | cons c rest ih =>
    rw [findDecimal] at h
    cases hm : decMatchAt (c :: rest) with
    | some m =>
      rw [hm] at h
      obtain rfl : m = (d1, d2) := Option.some.inj h
      obtain ⟨htok, suf, hdec⟩ := decMatchAt_eq_some hm
      exact ⟨[], suf, by simpa using hdec, htok,
        fun pre' _ _ _ _ _ => Nat.zero_le _⟩
    | none =>
      rw [hm] at h
      obtain ⟨pre, suf, hdec, htok, hmin⟩ := ih h
      refine ⟨c :: pre, suf, by simp [hdec], htok, ?_⟩
      intro pre' d1' d2' suf' htok' heq'
      cases pre' with
      | nil =>
        exfalso
        have hsome := decMatchAt_isSome suf' htok'
        rw [List.nil_append] at heq'
        rw [← heq', hm] at hsome
        simp at hsome
      | cons x pre'' =>
        rw [List.cons_append] at heq'
        obtain ⟨-, hrest⟩ := List.cons.injEq .. ▸ heq'
        simpa using Nat.succ_le_succ (hmin pre'' d1' d2' suf' htok' hrest)

lemma findDecimal_none_no_tok {s : List Char} (h : findDecimal s = none) :
    ¬ ∃ pre d1 d2 suf, IsDecTok d1 d2 ∧
      s = pre ++ (d1 ++ '.' :: d2) ++ suf := by
  rintro ⟨pre, d1, d2, suf, htok, heq⟩
  induction s generalizing pre with
  | nil =>
    rw [heq] at h
    cases pre with
    | nil =>
      have hsome := decMatchAt_isSome suf htok
      rw [List.nil_append] at h heq
      have : findDecimal ((d1 ++ '.' :: d2) ++ suf) = none := h
      cases hd : (d1 ++ '.' :: d2) ++ suf with
      | nil =>
        obtain ⟨hne, -, -, -⟩ := htok
        cases d1 with
        | nil => exact hne rfl
        | cons a as => simp at hd
      | cons y ys =>
        rw [hd, findDecimal] at this
        rw [hd] at hsome
        cases hm : decMatchAt (y :: ys) with
        | some m => rw [hm] at this; exact absurd this (by simp)
        | none => rw [hm] at hsome; simp at hsome
    | cons x pre' => simp at heq
  | cons c rest ih =>
    rw [findDecimal] at h
    cases hm : decMatchAt (c :: rest) with
    | some m => rw [hm] at h; exact absurd h (by simp)
    | none =>
      rw [hm] at h
      cases pre with
      | nil =>
        have hsome := decMatchAt_isSome suf htok
        rw [List.nil_append] at heq
        rw [← heq, hm] at hsome
        simp at hsome
      | cons x pre' =>
        rw [List.cons_append] at heq
        obtain ⟨-, hrest⟩ := List.cons.injEq .. ▸ heq
        exact ih h pre' hrest

lemma dictInsert_two (k1 k2 : String) (v1 v2 : ℚ) (h : k1 ≠ k2) :
    dictInsert k2 v2 (dictInsert k1 v1 []) = [(k1, v1), (k2, v2)] := by
  simp [dictInsert, h]

/-! ### Claim theorems -/

/-- C2: for every pair of integers `min_value < max_value`, `sample` terminates
(the loop body runs exactly once) and returns an integer `v` with
`min_value ≤ v < max_value`, for every state of the random generator. -/
theorem C2_sample_in_range (min_value max_value : Int) (r : Nat)
    (h : min_value < max_value) :
    ∃ v : Int, sample min_value max_value r = .ok v ∧
      min_value ≤ v ∧ v < max_value := by
  refine ⟨min_value + (r : Int) % (max_value - min_value), ?_, ?_, ?_⟩
  · unfold sample randrange
    rw [if_neg (by omega)]
  · have h0 : 0 ≤ (r : Int) % (max_value - min_value) :=
      Int.emod_nonneg _ (by omega)
    omega
  · have h1 : (r : Int) % (max_value - min_value) < max_value - min_value :=
      Int.emod_lt_of_pos _ (by omega)
    omega

/-- Witness for C2 at `min_value = 2`, `max_value = 7`, generator output 11. -/
theorem C2_witness :
    ∃ v : Int, sample 2 7 11 = .ok v ∧ 2 ≤ v ∧ v < 7 :=
  C2_sample_in_range 2 7 11 (by decide)

/-- C1: with `benches.sort_vec = {"parameter": "size", "output": "time_ms"}`
and a benchmark subprocess whose stdout is `"elapsed: 3.21s"` regardless of
input, `sample_and_bench` with `min_value < max_value` returns exactly the dict
`{"size": p, "time_ms": 3.21}` for an integer `p` with
`min_value ≤ p < max_value`. -/
theorem C1_sample_and_bench_end_to_end
    (benches : BenchesTable) (min_value max_value : Int) (r : Nat)
    (hlt : min_value < max_value)
    (hb : benches.lookup "sort_vec" = some ⟨"size", "time_ms"⟩) :
    ∃ p : Int, min_value ≤ p ∧ p < max_value ∧
      sample_and_bench (some benches) (fun _ _ => "elapsed: 3.21s") "sort_vec"
        min_value max_value r
      = .ok [("size", (p : ℚ)), ("time_ms", 321 / 100)] := by
  refine ⟨min_value + (r : Int) % (max_value - min_value), ?_, ?_, ?_⟩
  · have h0 : 0 ≤ (r : Int) % (max_value - min_value) :=
      Int.emod_nonneg _ (by omega)
    omega
  · have h1 : (r : Int) % (max_value - min_value) < max_value - min_value :=
      Int.emod_lt_of_pos _ (by omega)
    omega
  · have hs : sample min_value max_value r
        = .ok (min_value + (r : Int) % (max_value - min_value)) := by
      unfold sample randrange
      rw [if_neg (by omega)]
    have hfd : findDecimal "elapsed: 3.21s".toList = some (['3'], ['2', '1']) := rfl
    have hpd : parse_duration "elapsed: 3.21s" = .ok ((321 : ℚ) / 100) := by
      simp only [parse_duration, hfd]
      norm_num [decValue, show digitsVal ['3'] = 3 from rfl,
        show digitsVal ['2', '1'] = 21 from rfl]
    simp only [sample_and_bench, hs, bench, hpd, load_bench_function_data, hb]
    rw [dictInsert_two "size" "time_ms" _ _ (by decide)]

/-- Witness for C1 with `min_value = 0`, `max_value = 5`, generator output 12. -/
theorem C1_witness :
    ∃ p : Int, 0 ≤ p ∧ p < 5 ∧
      sample_and_bench (some [("sort_vec", ⟨"size", "time_ms"⟩)])
        (fun _ _ => "elapsed: 3.21s") "sort_vec" 0 5 12
      = .ok [("size", (p : ℚ)), ("time_ms", 321 / 100)] :=
  C1_sample_and_bench_end_to_end [("sort_vec", ⟨"size", "time_ms"⟩)] 0 5 12
    (by decide) (by decide)

/-- C3, counterexample: `write_into_csv` applied to the scalar record
`{param: 10, output: 1.5}` raises pandas' all-scalar `ValueError` before
touching the file, so two such calls leave an initialized file with its header
row and zero data rows, not two. -/
theorem C3_counterexample_scalar_record :
    (write_into_csv [("size", PyVal.scalar 10), ("time_ms", PyVal.scalar (3 / 2))]
        [[Cell.str "size", Cell.str "time_ms"]]).1
      = .error (.valueError "If using all scalar values, you must pass an index") ∧
    (write_into_csv [("size", PyVal.scalar 10), ("time_ms", PyVal.scalar (3 / 2))]
        [[Cell.str "size", Cell.str "time_ms"]]).2
      = [[Cell.str "size", Cell.str "time_ms"]] ∧
    (write_into_csv [("size", PyVal.scalar 20), ("time_ms", PyVal.scalar (27 / 10))]
        (write_into_csv [("size", PyVal.scalar 10), ("time_ms", PyVal.scalar (3 / 2))]
          [[Cell.str "size", Cell.str "time_ms"]]).2).2
      = [[Cell.str "size", Cell.str "time_ms"]] := by
  decide

/-- C3, amended: with the two records passed as one-element columns
(`{param: [10], output: [1.5]}` then `{param: [20], output: [2.7]}`),
`write_into_csv` on an initialized file appends exactly the row `(10, 1.5)`
and then the row `(20, 2.7)` after it, rewriting no header and reordering or
deduplicating nothing. -/
theorem C3_append_two_rows_in_order (file : Csv) (p o : String) :
    write_into_csv [(p, PyVal.column [10]), (o, PyVal.column [3 / 2])] file
      = (.ok (), file ++ [[Cell.num 10, Cell.num (3 / 2)]]) ∧
    write_into_csv [(p, PyVal.column [20]), (o, PyVal.column [27 / 10])]
        (file ++ [[Cell.num 10, Cell.num (3 / 2)]])
      = (.ok (), file ++ [[Cell.num 10, Cell.num (3 / 2)],
          [Cell.num 20, Cell.num (27 / 10)]]) := by
  have h1 : dfRows [(p, PyVal.column [10]), (o, PyVal.column [3 / 2])]
      = .ok [[(10 : ℚ), 3 / 2]] := rfl
  have h2 : dfRows [(p, PyVal.column [20]), (o, PyVal.column [27 / 10])]
      = .ok [[(20 : ℚ), 27 / 10]] := rfl
  constructor
  · simp [write_into_csv, h1]
  · simp [write_into_csv, h2]

/-- C4: on an existing dataset file whose two header names differ, as an
unordered pair, from the configured pair, `init_csv` fails with the schema
mismatch error naming the existing headers and leaves the file unchanged. -/
theorem C4_schema_mismatch (benches : BenchesTable) (f p o hA hB : String)
    (rest : Csv)
    (hb : benches.lookup f = some ⟨p, o⟩)
    (hne : ([hA, hB] : List String).toFinset ≠ [p, o].toFinset) :
    init_csv (some benches) (some ([Cell.str hA, Cell.str hB] :: rest)) f
      = (.error (.schemaMismatch [hA, hB]),
         some ([Cell.str hA, Cell.str hB] :: rest)) := by
  simp only [init_csv, load_bench_function_data, hb, List.map, cellHeaderName]
  rw [if_neg (fun hh => hne hh.symm)]

/-- Witness for C4: expected headers size and time_ms, existing headers a, b. -/
theorem C4_witness :
    init_csv (some [("sort_vec", ⟨"size", "time_ms"⟩)])
        (some ([Cell.str "a", Cell.str "b"] :: [])) "sort_vec"
      = (.error (.schemaMismatch ["a", "b"]),
         some ([Cell.str "a", Cell.str "b"] :: [])) :=
  C4_schema_mismatch [("sort_vec", ⟨"size", "time_ms"⟩)] "sort_vec"
    "size" "time_ms" "a" "b" [] (by decide) (by decide)

/-- C5: a second `init_csv` on a file already carrying matching headers is a
no-op: the call succeeds and the file content (header row and all data rows)
is returned untouched. -/
theorem C5_init_idempotent (benches : BenchesTable) (f p o : String)
    (row1 : List Cell) (rest : Csv)
    (hb : benches.lookup f = some ⟨p, o⟩)
    (hm : ([p, o] : List String).toFinset = (row1.map cellHeaderName).toFinset) :
    init_csv (some benches) (some (row1 :: rest)) f = (.ok (), some (row1 :: rest)) := by
  simp only [init_csv, load_bench_function_data, hb]
  rw [if_pos hm]

/-- Witness for C5: matching headers (even reordered) plus one data row are
left untouched. -/
theorem C5_witness :
    init_csv (some [("sort_vec", ⟨"size", "time_ms"⟩)])
        (some ([Cell.str "time_ms", Cell.str "size"] :: [[Cell.num 7, Cell.num 1]]))
        "sort_vec"
      = (.ok (), some ([Cell.str "time_ms", Cell.str "size"]
          :: [[Cell.num 7, Cell.num 1]])) :=
  C5_init_idempotent [("sort_vec", ⟨"size", "time_ms"⟩)] "sort_vec"
    "size" "time_ms" [Cell.str "time_ms", Cell.str "size"] [[Cell.num 7, Cell.num 1]]
    (by decide) (by decide)

/-- C6: on a path with no existing file, `init_csv` creates a file holding
exactly one header row with the two configured names in
parameter-then-output order and no data rows. -/
theorem C6_init_creates_header (benches : BenchesTable) (f p o : String)
    (hb : benches.lookup f = some ⟨p, o⟩) :
    init_csv (some benches) none f = (.ok (), some [[Cell.str p, Cell.str o]]) := by
  simp only [init_csv, load_bench_function_data, hb]

/-- Witness for C6 with the sort_vec config. -/
theorem C6_witness :
    init_csv (some [("sort_vec", ⟨"size", "time_ms"⟩)]) none "sort_vec"
      = (.ok (), some [[Cell.str "size", Cell.str "time_ms"]]) :=
  C6_init_creates_header [("sort_vec", ⟨"size", "time_ms"⟩)] "sort_vec"
    "size" "time_ms" (by decide)

/-- C7: for every text containing a substring of the form digits dot digits,
the result parser succeeds and returns the value of the first (leftmost) such
substring — the match it parses starts no later than any decimal substring of
the text; in particular parsing the text time: 12.345 ms gives 12.345. -/
theorem C7_parse_first_decimal (s : String)
    (hex : ∃ pre d1 d2 suf, IsDecTok d1 d2 ∧
      s.toList = pre ++ (d1 ++ '.' :: d2) ++ suf) :
    parse_duration "time: 12.345 ms" = .ok (2469 / 200) ∧
    ∃ pre d1 d2 suf, s.toList = pre ++ (d1 ++ '.' :: d2) ++ suf ∧ IsDecTok d1 d2 ∧
      parse_duration s = .ok (decValue d1 d2) ∧
      ∀ pre' d1' d2' suf', IsDecTok d1' d2' →
        s.toList = pre' ++ (d1' ++ '.' :: d2') ++ suf' →
          pre.length ≤ pre'.length := by
  constructor
  · have hfd : findDecimal "time: 12.345 ms".toList
        = some (['1', '2'], ['3', '4', '5']) := rfl
    simp only [parse_duration, hfd]
    norm_num [decValue, show digitsVal ['1', '2'] = 12 from rfl,
      show digitsVal ['3', '4', '5'] = 345 from rfl]
  · cases hf : findDecimal s.toList with
    | none => exact absurd hex (findDecimal_none_no_tok hf)
    | some m =>
      obtain ⟨d1, d2⟩ := m
      obtain ⟨pre, suf, hdec, htok, hmin⟩ := findDecimal_spec hf
      refine ⟨pre, d1, d2, suf, hdec, htok, ?_, hmin⟩
      simp only [String.toList] at hf
      simp [parse_duration, hf]

/-- Witness for C7 at the text time: 12.345 ms. -/
theorem C7_witness :
    parse_duration "time: 12.345 ms" = .ok (2469 / 200) ∧
    ∃ pre d1 d2 suf, "time: 12.345 ms".toList = pre ++ (d1 ++ '.' :: d2) ++ suf ∧
      IsDecTok d1 d2 ∧
      parse_duration "time: 12.345 ms" = .ok (decValue d1 d2) ∧
      ∀ pre' d1' d2' suf', IsDecTok d1' d2' →
        "time: 12.345 ms".toList = pre' ++ (d1' ++ '.' :: d2') ++ suf' →
          pre.length ≤ pre'.length :=
  C7_parse_first_decimal "time: 12.345 ms"
    ⟨"time: ".toList, ['1', '2'], ['3', '4', '5'], " ms".toList,
      ⟨by decide, by decide, by decide, by decide⟩, by decide⟩

/-- C8: on a text with no digits-dot-digits substring the result parser fails
with ParseFailure instead of returning a default value. -/
theorem C8_parse_no_match (s : String)
    (hno : ¬ ∃ pre d1 d2 suf, IsDecTok d1 d2 ∧
      s.toList = pre ++ (d1 ++ '.' :: d2) ++ suf) :
    parse_duration s = .error .parseFailure := by
  cases hf : findDecimal s.toList with
  | none =>
    simp only [String.toList] at hf
    simp [parse_duration, hf]
  | some m =>
    obtain ⟨d1, d2⟩ := m
    obtain ⟨pre, suf, hdec, htok, -⟩ := findDecimal_spec hf
    exact absurd ⟨pre, d1, d2, suf, htok, hdec⟩ hno

/-- Witness for C8 at the text no numbers here. -/
theorem C8_witness : parse_duration "no numbers here" = .error .parseFailure :=
  C8_parse_no_match "no numbers here" (findDecimal_none_no_tok (by decide))

/-- C9: when config.json does not exist, or the requested name is absent from
its benches mapping, `load_bench_function_data` fails with an error of the
spec's ConfigKeyMissing kind and returns no partial or default configuration. -/
theorem C9_config_key_missing (config : ConfigFile) (f : String)
    (h : config = none ∨ ∃ benches, config = some benches ∧ benches.lookup f = none) :
    ∃ e, load_bench_function_data config f = .error e ∧
      isConfigKeyMissing e = true := by
  rcases h with rfl | ⟨benches, rfl, hl⟩
  · exact ⟨.fileNotFound, rfl, rfl⟩
  · refine ⟨.keyNotFound f, ?_, rfl⟩
    simp [load_bench_function_data, hl]

/-- Witness for C9 with a missing config.json. -/
theorem C9_witness :
    ∃ e, load_bench_function_data none "sort_vec" = .error e ∧
      isConfigKeyMissing e = true :=
  C9_config_key_missing none "sort_vec" (Or.inl rfl)

/-- C10: `write_into_csv` appends rows computed from the record alone
(columns in the record's key order) — the same rows are appended whatever the
existing file holds, so the header row is never consulted; consequently, on a
file whose header row lists the two expected names output-then-parameter
(which `init_csv` accepts), the appended parameter value 10 lands in the first
column, under the output header, and the output value under the parameter
header. -/
theorem C10_append_ignores_header (file file2 : Csv)
    (data : List (String × PyVal)) (rows : List (List ℚ))
    (hdf : dfRows data = .ok rows) :
    (write_into_csv data file).2 = file ++ rows.map (fun row => row.map Cell.num) ∧
    (write_into_csv data file2).2 = file2 ++ rows.map (fun row => row.map Cell.num) ∧
    (init_csv (some [("sort_vec", ⟨"size", "time_ms"⟩)])
        (some [[Cell.str "time_ms", Cell.str "size"]]) "sort_vec").1 = .ok () ∧
    (write_into_csv [("size", PyVal.column [10]), ("time_ms", PyVal.column [3 / 2])]
        [[Cell.str "time_ms", Cell.str "size"]]).2
      = [[Cell.str "time_ms", Cell.str "size"], [Cell.num 10, Cell.num (3 / 2)]] := by
  refine ⟨?_, ?_, by decide, ?_⟩
  · simp [write_into_csv, hdf]
  · simp [write_into_csv, hdf]
  · have h1 : dfRows [("size", PyVal.column [10]), ("time_ms", PyVal.column [3 / 2])]
        = .ok [[(10 : ℚ), 3 / 2]] := rfl
    simp [write_into_csv, h1]

/-- Witness for C10 with a one-column record appended to two different files. -/
theorem C10_witness :
    (write_into_csv [("size", PyVal.column [10])] []).2
      = [] ++ [[(10 : ℚ)]].map (fun row => row.map Cell.num) ∧
    (write_into_csv [("size", PyVal.column [10])] [[Cell.str "x"]]).2
      = [[Cell.str "x"]] ++ [[(10 : ℚ)]].map (fun row => row.map Cell.num) ∧
    (init_csv (some [("sort_vec", ⟨"size", "time_ms"⟩)])
        (some [[Cell.str "time_ms", Cell.str "size"]]) "sort_vec").1 = .ok () ∧
    (write_into_csv [("size", PyVal.column [10]), ("time_ms", PyVal.column [3 / 2])]
        [[Cell.str "time_ms", Cell.str "size"]]).2
      = [[Cell.str "time_ms", Cell.str "size"], [Cell.num 10, Cell.num (3 / 2)]] :=
  C10_append_ignores_header [] [[Cell.str "x"]] [("size", PyVal.column [10])]
    [[(10 : ℚ)]] rfl

end Perftool
